import Mathlib

/-!
Shallow embedding of the `simple_timer` stopwatch (src/src/main.rs).

The timer core is the `GUI::update` reducer over a state holding the
tick mode, the last checkpoint instant and the accumulated duration,
plus the pure rendering in `GUI::view`.  Wall-clock instants and
durations are modelled as natural numbers of nanoseconds; each delivered
message carries the instant `now` that `Instant::now()` returns when the
handler runs (the clock is injected, as the spec's design notes ask).
`Instant - Instant` is truncated (saturating) subtraction, matching
`Nat` subtraction.  The iced button-state fields of the Rust struct are
rendering plumbing with no behaviour and are omitted.
-/

/-- Source constants from main.rs. -/
def MILLISEC : Nat := 1000

def MINUTE : Nat := 60

def HOUR : Nat := 60 * MINUTE

/-- Nanoseconds per second, fixed by `std::time::Duration`. -/
def NANOS_PER_SEC : Nat := 1000000000

/-- Nanoseconds per millisecond, fixed by `std::time::Duration`. -/
def NANOS_PER_MILLI : Nat := 1000000

/-- `enum TickState { Init, Stopped, Ticking }` from main.rs. -/
inductive TickState where
  | Init
  | Stopped
  | Ticking
deriving DecidableEq, Repr

/-- `enum Message { Start, Stop, Reset, Update }` from main.rs. -/
inductive Message where
  | Start
  | Stop
  | Reset
  | Update
deriving DecidableEq, Repr

/-- The timer-relevant fields of `struct GUI` from main.rs:
`tick_state`, `last_update: Instant` (nanoseconds), and
`total_duration: Duration` (nanoseconds). -/
structure GUI where
  tick_state : TickState
  last_update : Nat
  total_duration : Nat
deriving DecidableEq, Repr

/-- `GUI::new`: `tick_state = Init`, `last_update = Instant::now()`,
`total_duration = Duration::default()` (zero). -/
def GUI.new (now : Nat) : GUI :=
  { tick_state := TickState.Init, last_update := now, total_duration := 0 }

/-- `GUI::update`, with the value of `Instant::now()` during the handler
passed in as `now`.  Transcribed arm by arm from main.rs:
`Start` unconditionally sets `tick_state = Ticking` and
`last_update = now`; `Stop` unconditionally sets `tick_state = Stopped`
and adds `now - last_update` to `total_duration`; `Reset` sets
`last_update = now`, zeroes `total_duration` and sets
`tick_state = Init`; `Update` acts only when `tick_state` is `Ticking`,
adding `now - last_update` to `total_duration` and advancing
`last_update` to `now`. -/
def GUI.update (g : GUI) (m : Message) (now : Nat) : GUI :=
  match m with
  | Message.Start =>
      { g with tick_state := TickState.Ticking, last_update := now }
  | Message.Stop =>
      { g with tick_state := TickState.Stopped
             , total_duration := g.total_duration + (now - g.last_update) }
  | Message.Reset =>
      { last_update := now, total_duration := 0, tick_state := TickState.Init }
  | Message.Update =>
      match g.tick_state with
      | TickState.Ticking =>
          { g with total_duration := g.total_duration + (now - g.last_update)
                 , last_update := now }
      | _ => g

/-- Deliver a sequence of timestamped messages through the single
serialized `update` entry point, in order. -/
def GUI.run (g : GUI) : List (Message × Nat) → GUI
  | [] => g
  | e :: es => GUI.run (g.update e.1 e.2) es

/-- `Duration::as_secs` on a duration held as nanoseconds. -/
def as_secs (d : Nat) : Nat := d / NANOS_PER_SEC

/-- `Duration::subsec_millis` on a duration held as nanoseconds. -/
def subsec_millis (d : Nat) : Nat := d % NANOS_PER_SEC / NANOS_PER_MILLI

/-- The `{:0>2}` format specifier of main.rs: decimal digits, left-padded
with a zero to a width of at least two. -/
def pad2 (n : Nat) : String :=
  if n < 10 then String.append (String.mk ['0']) (toString n) else toString n

/-- The `duration_text` computed in `GUI::view`:
`format!("{:0>2}:{:0>2}:{:0>2}.{:0>2}", seconds / HOUR,
(seconds % HOUR) / MINUTE, seconds % HOUR,
total_duration.subsec_millis() / 10)`. -/
def duration_text (d : Nat) : String :=
  let seconds := as_secs d
  pad2 (seconds / HOUR) ++ ":" ++ pad2 (seconds % HOUR / MINUTE) ++ ":"
    ++ pad2 (seconds % HOUR) ++ "." ++ pad2 (subsec_millis d / 10)

/-- The label of the start/stop button, from the `start_stop_text` match
in `GUI::view`. -/
def start_stop_label : TickState → String
  | TickState.Init => "Start"
  | TickState.Stopped => "Restart"
  | TickState.Ticking => "Stop"

/-- The message attached to the start/stop button, from the
`start_stop_message` match in `GUI::view`. -/
def start_stop_message : TickState → Message
  | TickState.Init | TickState.Stopped => Message.Start
  | TickState.Ticking => Message.Stop

/-- Modelled from the spec: the rendered text as §4.2 describes it —
`HH` = total seconds ÷ 3600 unbounded, `MM` = (total seconds mod 3600)
÷ 60, `SS` = total seconds mod 3600, `CC` = centiseconds truncated,
each zero-padded to at least two digits. -/
def spec_render (d : Nat) : String :=
  let totalSeconds := d / NANOS_PER_SEC
  let centi := d % NANOS_PER_SEC / 10000000
  pad2 (totalSeconds / 3600) ++ ":" ++ pad2 (totalSeconds % 3600 / 60) ++ ":"
    ++ pad2 (totalSeconds % 3600) ++ "." ++ pad2 centi

/-- A list of tick instants forming a nondecreasing chain that starts no
earlier than `lo` and stays at or below `hi`. -/
def withinChain (lo hi : Nat) : List Nat → Bool
  | [] => true
  | t :: ts => decide (lo ≤ t) && decide (t ≤ hi) && withinChain t hi ts

theorem run_append (l1 l2 : List (Message × Nat)) (g : GUI) :
    GUI.run g (l1 ++ l2) = GUI.run (GUI.run g l1) l2 := by
  induction l1 generalizing g with
  | nil => rfl
  | cons e es ih => simp [GUI.run, ih]

theorem run_ticking_then_stop (ts : List Nat) (c a0 T : Nat)
    (h : withinChain c T ts = true) :
    (GUI.run ⟨TickState.Ticking, c, a0⟩
        (ts.map (fun u => (Message.Update, u)) ++ [(Message.Stop, T)]))
      = ⟨TickState.Stopped, (ts.getLastD c), a0 + (T - c)⟩ := by
  induction ts generalizing c a0 with
  | nil => simp [GUI.run, GUI.update]
  | cons u us ih =>
      simp only [withinChain, Bool.and_eq_true, decide_eq_true_eq] at h
      obtain ⟨⟨hcu, huT⟩, hchain⟩ := h
      have step : GUI.update ⟨TickState.Ticking, c, a0⟩ Message.Update u
          = ⟨TickState.Ticking, u, a0 + (u - c)⟩ := rfl
      simp only [List.map_cons, List.cons_append, GUI.run, step, List.append_eq]
      rw [ih u (a0 + (u - c)) hchain]
      have : a0 + (u - c) + (T - u) = a0 + (T - c) := by omega
      cases us <;> simp [List.getLastD, List.getLast?_cons_cons, this]

/-! ## Claim theorems -/

/-- Claim C1, counterexample: applying `Stop` when the mode is `Stopped`
(state `⟨Stopped, 0, 5⟩` at `now = 3`) or `Idle`/`Init` (state
`⟨Init, 0, 5⟩` at `now = 3`) is not a no-op: the `Stop` arm of
`GUI::update` is unconditional, so it adds `now - last_update` and
forces the mode to `Stopped` in every mode. -/
theorem stop_not_noop_when_not_running :
    GUI.update ⟨TickState.Stopped, 0, 5⟩ Message.Stop 3 ≠ ⟨TickState.Stopped, 0, 5⟩
  ∧ GUI.update ⟨TickState.Init, 0, 5⟩ Message.Stop 3 ≠ ⟨TickState.Init, 0, 5⟩
  ∧ (GUI.update ⟨TickState.Stopped, 0, 5⟩ Message.Stop 3).total_duration = 8 := by
  refine ⟨?_, ?_, rfl⟩ <;> decide

/-- Claim C1, amended: in every mode — `Running`, `Stopped` or `Idle`
alike — applying `Stop` sets the mode to `Stopped` and adds
`now - last_checkpoint` to the accumulated duration, leaving the
checkpoint unchanged; it is not a no-op outside `Running`. -/
theorem stop_unconditional (g : GUI) (now : Nat) :
    GUI.update g Message.Stop now
      = ⟨TickState.Stopped, g.last_update, g.total_duration + (now - g.last_update)⟩ := rfl

/-- Claim C2, counterexample: the state reached from the initial state by
`Start` at time 0 then `Stop` at time 1 has mode `Stopped` and
accumulated 1; a further `Stop` step at time 2 — taken while the mode is
`Stopped`, not `Running` — raises the accumulated duration to 3, and a
`Reset` step lowers it to 0, so the accumulated duration neither only
increases nor increases only while `Running`. -/
theorem accumulated_changes_outside_running :
    (GUI.run (GUI.new 0) [(Message.Start, 0), (Message.Stop, 1)]).tick_state = TickState.Stopped
  ∧ (GUI.run (GUI.new 0) [(Message.Start, 0), (Message.Stop, 1)]).total_duration = 1
  ∧ (GUI.update (GUI.run (GUI.new 0) [(Message.Start, 0), (Message.Stop, 1)])
      Message.Stop 2).total_duration = 3
  ∧ (GUI.update (GUI.run (GUI.new 0) [(Message.Start, 0), (Message.Stop, 1)])
      Message.Reset 2).total_duration = 0 := by
  refine ⟨rfl, rfl, rfl, rfl⟩

/-- Claim C2, amended: on every state, any step other than `Reset` leaves
the accumulated duration non-decreasing; it strictly increases only on a
`Stop` step (taken in any mode, since the `Stop` arm is unconditional)
or on a `Tick` (`Update`) step taken while the mode is `Running`; a
`Reset` step sets it to 0. -/
theorem accumulated_step_monotonicity (g : GUI) (m : Message) (now : Nat) :
    (m ≠ Message.Reset → g.total_duration ≤ (GUI.update g m now).total_duration)
  ∧ (g.total_duration < (GUI.update g m now).total_duration →
      m = Message.Stop ∨ (m = Message.Update ∧ g.tick_state = TickState.Ticking))
  ∧ (m = Message.Reset → (GUI.update g m now).total_duration = 0) := by
  obtain ⟨ts, lu, td⟩ := g
  cases m <;> cases ts <;> simp [GUI.update]

/-- Claim C2, witness for the amended theorem at a concrete input. -/
theorem accumulated_step_monotonicity_witness :
    (⟨TickState.Ticking, 0, 0⟩ : GUI).total_duration
      ≤ (GUI.update ⟨TickState.Ticking, 0, 0⟩ Message.Update 5).total_duration :=
  (accumulated_step_monotonicity ⟨TickState.Ticking, 0, 0⟩ Message.Update 5).1 (by decide)

/-- Claim C3: for every state and every `now`, `Reset` yields the state
with accumulated 0, mode `Idle` (`Init`) and the checkpoint set to
`now`, and an immediately repeated `Reset` (same `now`) yields the very
same state. -/
theorem reset_idempotent (g : GUI) (now : Nat) :
    GUI.update g Message.Reset now = ⟨TickState.Init, now, 0⟩
  ∧ GUI.update (GUI.update g Message.Reset now) Message.Reset now
      = GUI.update g Message.Reset now :=
  ⟨rfl, rfl⟩

/-- Claim C4: from any state whose mode is `Idle` (`Init`) or `Stopped`,
delivering any number of `Tick` (`Update`) events at arbitrary instants
leaves the whole state — in particular the accumulated duration and the
mode — unchanged. -/
theorem ticks_noop_when_not_running (g : GUI) (ts : List Nat)
    (h : g.tick_state = TickState.Init ∨ g.tick_state = TickState.Stopped) :
    GUI.run g (ts.map (fun u => (Message.Update, u))) = g := by
  induction ts with
  | nil => rfl
  | cons u us ih =>
      have hstep : GUI.update g Message.Update u = g := by
        obtain ⟨ts', lu, td⟩ := g
        rcases h with h | h <;> simp_all [GUI.update]
      simp [GUI.run, hstep, ih]

/-- Claim C4, witness at a concrete stopped state and three ticks. -/
theorem ticks_noop_when_not_running_witness :
    GUI.run ⟨TickState.Stopped, 0, 7⟩ ([1, 2, 3].map (fun u => (Message.Update, u)))
      = ⟨TickState.Stopped, 0, 7⟩ :=
  ticks_noop_when_not_running ⟨TickState.Stopped, 0, 7⟩ [1, 2, 3] (Or.inr rfl)

/-- Claim C5: from any state whose mode is `Idle` (`Init`) or `Stopped`,
`Start` sets the checkpoint to `now` and the mode to `Running`
(`Ticking`) while leaving the accumulated duration unchanged, and
`Reset` — not `Start` — is what zeroes the accumulated duration. -/
theorem start_resume_semantics (g : GUI) (now : Nat)
    (h : g.tick_state = TickState.Init ∨ g.tick_state = TickState.Stopped) :
    GUI.update g Message.Start now = ⟨TickState.Ticking, now, g.total_duration⟩
  ∧ (GUI.update g Message.Start now).total_duration = g.total_duration
  ∧ (GUI.update g Message.Reset now).total_duration = 0 :=
  ⟨rfl, rfl, rfl⟩

/-- Claim C5, witness: resuming from a stopped state with accumulated 9
keeps the 9. -/
theorem start_resume_semantics_witness :
    GUI.update ⟨TickState.Stopped, 2, 9⟩ Message.Start 4 = ⟨TickState.Ticking, 4, 9⟩ :=
  (start_resume_semantics ⟨TickState.Stopped, 2, 9⟩ 4 (Or.inr rfl)).1

/-- Claim C6: with the injected clock, starting at `t` from any state
with accumulated 0, ticking at any nondecreasing instants within
`[t, t + d1]`, stopping at `t + d1`, starting again at `t2`, ticking at
any nondecreasing instants within `[t2, t2 + d2]`, and stopping at
`t2 + d2` yields accumulated exactly `d1 + d2`, independent of how many
ticks were interleaved while running. -/
theorem running_intervals_additive (g : GUI) (t d1 t2 d2 : Nat) (ts1 ts2 : List Nat)
    (h0 : g.total_duration = 0)
    (h1 : withinChain t (t + d1) ts1 = true)
    (h2 : withinChain t2 (t2 + d2) ts2 = true) :
    (GUI.run g
        (((Message.Start, t) ::
            (ts1.map (fun u => (Message.Update, u)) ++ [(Message.Stop, t + d1)]))
          ++ ((Message.Start, t2) ::
            (ts2.map (fun u => (Message.Update, u)) ++ [(Message.Stop, t2 + d2)])))
      ).total_duration = d1 + d2 := by
  have hstart1 : GUI.update g Message.Start t = ⟨TickState.Ticking, t, 0⟩ := by
    obtain ⟨ts', lu, td⟩ := g
    simp_all [GUI.update]
  rw [run_append]
  simp only [GUI.run, hstart1]
  rw [run_ticking_then_stop ts1 t 0 (t + d1) h1]
  have hstart2 : GUI.update ⟨TickState.Stopped, ts1.getLastD t, 0 + (t + d1 - t)⟩
      Message.Start t2 = ⟨TickState.Ticking, t2, 0 + (t + d1 - t)⟩ := rfl
  rw [hstart2, run_ticking_then_stop ts2 t2 (0 + (t + d1 - t)) (t2 + d2) h2]
  show 0 + (t + d1 - t) + (t2 + d2 - t2) = d1 + d2
  omega

/-- Claim C6, witness: start at 0, tick at 1, stop at 2, restart at 10,
stop at 13; the accumulated duration is 2 + 3. -/
theorem running_intervals_additive_witness :
    (GUI.run (GUI.new 0)
        (((Message.Start, 0) ::
            (([1] : List Nat).map (fun u => (Message.Update, u)) ++ [(Message.Stop, 0 + 2)]))
          ++ ((Message.Start, 10) ::
            (([] : List Nat).map (fun u => (Message.Update, u)) ++ [(Message.Stop, 10 + 3)])))
      ).total_duration = 2 + 3 :=
  running_intervals_additive (GUI.new 0) 0 2 10 3 [1] [] rfl (by decide) (by decide)

/-- Claim C7: for every accumulated duration, the text computed by
`GUI::view` equals the rendering the spec describes — `HH:MM:SS.CC`
with unbounded hours, minutes within the hour, the `SS` field holding
seconds within the hour (the source quirk), and truncated centiseconds,
each field zero-padded to at least two digits. -/
theorem duration_text_matches_spec (d : Nat) : duration_text d = spec_render d := by
  unfold duration_text spec_render as_secs subsec_millis
  rw [Nat.div_div_eq_div_mul]
  norm_num [HOUR, MINUTE, NANOS_PER_SEC, NANOS_PER_MILLI]

/-- Claim C8: the start/stop button label is a pure function of the mode
(`Idle → "Start"`, `Stopped → "Restart"`, `Running → "Stop"`), and the
message the button issues is `Start` when the mode is `Idle` or
`Stopped` and `Stop` when it is `Running`. -/
theorem button_label_and_message :
    start_stop_label TickState.Init = "Start"
  ∧ start_stop_label TickState.Stopped = "Restart"
  ∧ start_stop_label TickState.Ticking = "Stop"
  ∧ start_stop_message TickState.Init = Message.Start
  ∧ start_stop_message TickState.Stopped = Message.Start
  ∧ start_stop_message TickState.Ticking = Message.Stop :=
  ⟨rfl, rfl, rfl, rfl, rfl, rfl⟩

/-- Claim C9: for any startup instant, `GUI::new` yields mode `Idle`
(`Init`), accumulated 0, checkpoint `now`; the never-started timer
renders the text `00:00:00.00` and the button label `Start`. -/
theorem initial_state_and_display (now : Nat) :
    GUI.new now = ⟨TickState.Init, now, 0⟩
  ∧ duration_text (GUI.new now).total_duration = "00:00:00.00"
  ∧ start_stop_label (GUI.new now).tick_state = "Start" := by
  refine ⟨rfl, ?_, rfl⟩
  show duration_text 0 = "00:00:00.00"
  decide

/-- Claim C10: applying `Start` while the mode is `Running` (`Ticking`)
keeps the mode `Running` and the accumulated duration unchanged but
moves the checkpoint to `now`, silently discarding the interval elapsed
since the previous checkpoint. -/
theorem start_while_running (g : GUI) (now : Nat)
    (h : g.tick_state = TickState.Ticking) :
    GUI.update g Message.Start now = ⟨TickState.Ticking, now, g.total_duration⟩ := rfl

/-- Claim C10, witness at a concrete running state. -/
theorem start_while_running_witness :
    GUI.update ⟨TickState.Ticking, 1, 6⟩ Message.Start 8 = ⟨TickState.Ticking, 8, 6⟩ :=
  start_while_running ⟨TickState.Ticking, 1, 6⟩ 8 rfl
